import Mathlib

/-!
Shallow embedding of the NrFileCompressor repository
(src/NrFileCompressor.cpp, src/NrFileCompressor.h).

Modelling conventions:
- strings (QString) are lists of characters;
- file contents are lists of byte values (Nat, < 256 in practice);
- the miniz library (included as "miniz.h" but not part of the
  specified sources) is treated as an external collaborator: its CRC32
  is modelled bitwise, its deflate/zip operations by their observable
  outcomes;
- platform conditionals (WIN32) become a Bool parameter.
-/

namespace NrFileCompressor

/-- Compression algorithm selector (NrFileCompressor.h lines 31-36). -/
inductive compressedFileFormatEnum where
  | NO_COMPRESSION
  | GZIP_ARCHIVE
  | ZIP_ARCHIVE
  deriving DecidableEq, Repr

/-- NrFileCompressor.h line 39. -/
def E_FILE_NOT_OPEN : Int := -1

/-- NrFileCompressor.h line 40. -/
def E_FILE_NOT_WRITEABLE : Int := -2

/-- NrFileCompressor.h line 41: the CodecError code. -/
def E_MINIZ_ERROR : Int := -3

/-- The C standard constant returned on the ZIP-path failure branches
(NrFileCompressor.cpp lines 153, 165, 172, 179, 205, 237). -/
def EXIT_FAILURE : Int := 1

/-- NrFileCompressor.cpp lines 253-271: extract byte `bytenum` of a
32-bit value (switch on the byte index selecting a shift of 0/8/16/24,
then mask with 0xFF). -/
def getByte (var : Nat) (bytenum : Nat) : Nat :=
  let shift : Nat :=
    if bytenum = 1 then 8
    else if bytenum = 2 then 16
    else if bytenum = 3 then 24
    else 0
  (var >>> shift) &&& 0xFF

/-- NrFileCompressor.cpp lines 274-315: the 10 header bytes written by
writeGzipHeader, in write order: id1=31, id2=139, cm=8, flg=0, the four
mtime bytes extracted with getByte 0..3, xflg=0 and the platform OS
byte (0 under WIN32, 3 otherwise). -/
def writeGzipHeader (win32 : Bool) (i_mtime : Nat) : List Nat :=
  let os : Nat := if win32 then 0 else 3
  [31, 139, 8, 0,
   getByte i_mtime 0, getByte i_mtime 1, getByte i_mtime 2, getByte i_mtime 3,
   0, os]

/-- NrFileCompressor.cpp lines 318-336: the 8 footer bytes written by
writeGzipFooter: the four CRC32 bytes then the four size bytes, each
extracted little-endian with getByte. -/
def writeGzipFooter (i_crc32 : Nat) (i_size : Nat) : List Nat :=
  [getByte i_crc32 0, getByte i_crc32 1, getByte i_crc32 2, getByte i_crc32 3,
   getByte i_size 0, getByte i_size 1, getByte i_size 2, getByte i_size 3]

/-- LONG_MAX for the GNU/LP64 build targeted by the source's __GNUC__
block (a C long is 64 bits). Under WIN32 LONG_MAX is 2^31 - 1; either
value makes LONG_MAX - 1 an even mask, which is what the claims turn
on. -/
def LONG_MAX : Nat := 2 ^ 63 - 1

/-- NrFileCompressor.cpp line 475: the footer size argument,
static_cast of finSize & (LONG_MAX - 1) to quint32. -/
def gzipModsize (finSize : Nat) : Nat :=
  (finSize &&& (LONG_MAX - 1)) % 2 ^ 32

/-- NrFileCompressor.cpp line 403: the mtime argument passed to
writeGzipHeader, static_cast of lastModified().toMSecsSinceEpoch()/1000
to quint32. -/
def gzipMtimeArg (msecsSinceEpoch : Nat) : Nat :=
  (msecsSinceEpoch / 1000) % 2 ^ 32

/-- Modelled from the spec: the CRC32 polynomial (reflected) used by
the external miniz mz_crc32, which is not among the specified sources
(it is included as "miniz.h"). -/
def mzCrcPoly : Nat := 0xEDB88320

/-- One shift-and-conditionally-xor round of the bitwise CRC32. -/
def mzCrcRound (x : Nat) : Nat :=
  if x % 2 = 1 then (x / 2) ^^^ mzCrcPoly else x / 2

/-- n rounds of mzCrcRound. -/
def mzCrcRounds : Nat → Nat → Nat
  | 0, x => x
  | n + 1, x => mzCrcRounds n (mzCrcRound x)

/-- Absorb one byte into the running (pre-complemented) CRC32. -/
def mzCrcByte (crcu32 : Nat) (b : Nat) : Nat :=
  mzCrcRounds 8 (crcu32 ^^^ (b % 256))

/-- Modelled from the spec: mz_crc32(crc, buf, len) of the external
miniz library ("32-bit cyclic redundancy check over uncompressed
bytes"): complement the running value, absorb each byte in order,
complement again. mz_crc32 0 [] = 0 is the CRC32-of-empty-input
seed used at NrFileCompressor.cpp line 417. -/
def mz_crc32 (crc : Nat) (buf : List Nat) : Nat :=
  (buf.foldl mzCrcByte (crc ^^^ 0xFFFFFFFF)) ^^^ 0xFFFFFFFF

/-- NrFileCompressor.cpp line 362: the fixed 1 MiB buffer capacity. -/
def BUF_SIZE : Nat := 1024 * 1024

/-- The successive chunks read by the loop at NrFileCompressor.cpp
lines 420-442: whenever the compressor's input is exhausted, the next
min(BUF_SIZE, remaining) bytes are read, until none remain. -/
def readChunks (l : List Nat) : List (List Nat) :=
  if h : l = [] then []
  else List.take BUF_SIZE l :: readChunks (List.drop BUF_SIZE l)
termination_by l.length
decreasing_by
  have hl : 0 < l.length := List.length_pos.mpr h
  have hb : BUF_SIZE = 1048576 := rfl
  simp only [List.length_drop]
  omega

/-- The CRC accumulated by the reading loop (NrFileCompressor.cpp
lines 417 and 435): start from the seed mz_crc32(0, nullptr, 0) and
fold mz_crc32 over the chunks actually read. -/
def gzipStreamCrc (l : List Nat) : Nat :=
  (readChunks l).foldl (fun c ch => mz_crc32 c ch) (mz_crc32 0 [])

/-- Modelled from the spec: the external DEFLATE compressor's output
for empty input under "finish" framing — the spec states that deflate
"finish" of empty input still emits a minimal stream; the minimal raw
deflate stream is the 2-byte final fixed-Huffman empty block. -/
def deflateFinishEmpty : List Nat := [3, 0]

/-- The bytes of the destination file produced by a successful run of
compressGzipFile (NrFileCompressor.cpp lines 401-477) on a source file
with the given content: the header (line 403), the external
compressor's output flushed by the loop, and the footer with the
accumulated CRC and the modsize of the length captured before the loop
(lines 406, 475, 477). -/
def compressGzipFileBytes (win32 : Bool) (mtimeMsecs : Nat)
    (content : List Nat) (deflateOut : List Nat) : List Nat :=
  writeGzipHeader win32 (gzipMtimeArg mtimeMsecs) ++ deflateOut ++
    writeGzipFooter (gzipStreamCrc content) (gzipModsize content.length)

/-- Little-endian decoding of a 4-byte field, as an RFC 1952 reader of
the MTIME / CRC32 / ISIZE fields performs it. -/
def decodeLE32 (bs : List Nat) : Nat :=
  match bs with
  | [b0, b1, b2, b3] => b0 + 256 * b1 + 65536 * b2 + 16777216 * b3
  | _ => 0

/-- Outcomes reported by the external zip writer's four calls in
compressZipFile (init_file, add_file, finalize_archive, writer_end). -/
structure MzZipWriterOutcome where
  initOk : Bool
  addOk : Bool
  finalizeOk : Bool
  endOk : Bool
  deriving DecidableEq, Repr

/-- Result of a ZIP-path call: the returned code and how many times
the matching end call (writer_end / reader_end) ran. -/
structure ZipCallResult where
  ret : Int
  endCalls : Nat
  deriving DecidableEq, Repr

/-- Control flow of compressZipFile (NrFileCompressor.cpp lines
127-183) as a function of the source-existence check and the library
outcomes: missing source returns E_FILE_NOT_OPEN; a failed init, add
or finalize returns EXIT_FAILURE without reaching writer_end; a failed
writer_end returns EXIT_FAILURE after the single end call; otherwise
0 after the single end call. -/
def compressZipFileTrace (srcExists : Bool) (w : MzZipWriterOutcome) :
    ZipCallResult :=
  if srcExists = false then ⟨E_FILE_NOT_OPEN, 0⟩
  else if w.initOk = false then ⟨EXIT_FAILURE, 0⟩
  else if w.addOk = false then ⟨EXIT_FAILURE, 0⟩
  else if w.finalizeOk = false then ⟨EXIT_FAILURE, 0⟩
  else if w.endOk = false then ⟨EXIT_FAILURE, 1⟩
  else ⟨0, 1⟩

/-- One archive entry as seen by the extraction loop of
uncompressZipFile: the outcome of file_stat, the is-directory flag and
the outcome of extract_to_file. -/
structure MzZipEntry where
  statOk : Bool
  isDir : Bool
  extractOk : Bool
  deriving DecidableEq, Repr

/-- The extraction loop of uncompressZipFile (NrFileCompressor.cpp
lines 216-239): a failed stat or a directory entry is skipped; a
failed extraction returns EXIT_FAILURE immediately; none of these
ending the loop early yields none. -/
def uncompressLoop : List MzZipEntry → Option Int
  | [] => none
  | e :: rest =>
    if e.statOk = false then uncompressLoop rest
    else if e.isDir = true then uncompressLoop rest
    else if e.extractOk = false then some EXIT_FAILURE
    else uncompressLoop rest

/-- Control flow of uncompressZipFile (NrFileCompressor.cpp lines
193-245): failed reader init returns EXIT_FAILURE with no end call;
an empty archive ends the reader and returns 0; an early return from
the loop skips reader_end; otherwise reader_end runs once and 0 is
returned. -/
def uncompressZipFileTrace (initOk : Bool) (entries : List MzZipEntry) :
    ZipCallResult :=
  if initOk = false then ⟨EXIT_FAILURE, 0⟩
  else if entries.length = 0 then ⟨0, 1⟩
  else
    match uncompressLoop entries with
    | some r => ⟨r, 0⟩
    | none => ⟨0, 1⟩

/-- The dispatch of fileCompress (NrFileCompressor.cpp lines 64-71):
GZIP_ARCHIVE goes to compressGzipFile, every other algorithm value
goes to compressZipFile. The gzip branch's result is abstracted as a
parameter; the zip branch is the compressZipFile model. -/
def fileCompress (i_algo : compressedFileFormatEnum) (gzipResult : Int)
    (srcExists : Bool) (w : MzZipWriterOutcome) : Int :=
  if i_algo = compressedFileFormatEnum.GZIP_ARCHIVE then gzipResult
  else (compressZipFileTrace srcExists w).ret

/-- QString::replace with a one-character pattern: replace every
occurrence of that character. -/
def replaceAllChar (s : List Char) (pat rep : Char) : List Char :=
  s.map (fun c => if c = pat then rep else c)

/-- NrFileCompressor.cpp lines 75-82: replace every backslash, slash
and colon with an underscore, in that order of passes. -/
def calculateNameCompliantWithZipAlgoMiniZ (filename : List Char) : List Char :=
  let s1 := replaceAllChar filename '\\' '_'
  let s2 := replaceAllChar s1 '/' '_'
  let s3 := replaceAllChar s2 ':' '_'
  s3

/-- NrFileCompressor.cpp line 29. -/
def GZIP_EXT : List Char := ".gz".toList

/-- NrFileCompressor.cpp line 30. -/
def ZIP_EXT : List Char := ".zip".toList

/-- NrFileCompressor.cpp lines 101-112: switch on the algorithm,
appending ".gz" for GZIP_ARCHIVE, sanitizing and appending ".zip" for
ZIP_ARCHIVE, returning the name unchanged in the default case. -/
def getCompressedFilename (i_fileName : List Char)
    (i_algo : compressedFileFormatEnum) : List Char :=
  match i_algo with
  | compressedFileFormatEnum.GZIP_ARCHIVE => i_fileName ++ GZIP_EXT
  | compressedFileFormatEnum.ZIP_ARCHIVE =>
      calculateNameCompliantWithZipAlgoMiniZ i_fileName ++ ZIP_EXT
  | _ => i_fileName

/-- QDir::fromNativeSeparators: on Windows every backslash becomes a
slash, elsewhere the path is returned unchanged. -/
def fromNativeSeparators (win32 : Bool) (s : List Char) : List Char :=
  if win32 then replaceAllChar s '\\' '/' else s

/-- NrFileCompressor.cpp lines 84-92: normalize the destination path
to forward-slash form, append a slash if it does not already end with
one, then append the filename. -/
def calculateFilenameWithPath (win32 : Bool)
    (i_dstPath filename : List Char) : List Char :=
  let destfileWithpath := fromNativeSeparators win32 i_dstPath
  let withSep :=
    if destfileWithpath.getLast? = some '/' then destfileWithpath
    else destfileWithpath ++ ['/']
  withSep ++ filename

/-- All trailing slashes removed. -/
def dropTrailingSlashes (s : List Char) : List Char :=
  (s.reverse.dropWhile (fun c => c = '/')).reverse

/-- The claim's description of joinPath, stated as written: the
directory normalized to forward-slash form with exactly one trailing
separator, followed by the name. -/
def specJoinPath (win32 : Bool) (dir name : List Char) : List Char :=
  dropTrailingSlashes (fromNativeSeparators win32 dir) ++ '/' :: name

/-- Modelled from the spec: a stored-mode raw-deflate stream holding
the single byte 65, as the level-0 "storing" extreme the spec
describes would emit (final stored block: header byte 1, LEN = 1,
NLEN = complement of LEN, then the literal byte). -/
def deflateStoredSingleA : List Nat := [1, 1, 0, 254, 255, 65]

/-! Helper lemmas. -/

/-- The complement step cancels between consecutive mz_crc32 calls, so
feeding two buffers in sequence equals feeding their concatenation. -/
theorem mz_crc32_append (c : Nat) (a b : List Nat) :
    mz_crc32 (mz_crc32 c a) b = mz_crc32 c (a ++ b) := by
  simp only [mz_crc32, List.foldl_append, Nat.xor_cancel_right]

/-- Folding mz_crc32 over a chunk list equals one mz_crc32 call on the
flattened bytes. -/
theorem foldl_mz_crc32_eq_join (chunks : List (List Nat)) (c : Nat) :
    chunks.foldl (fun x ch => mz_crc32 x ch) c = mz_crc32 c chunks.flatten := by
  induction chunks generalizing c with
  | nil => simp [mz_crc32, Nat.xor_cancel_right]
  | cons a t ih =>
      simp only [List.foldl_cons, List.flatten_cons, ih, mz_crc32_append]

/-- The chunks read by the loop flatten back to the whole file. -/
theorem readChunks_flatten (l : List Nat) : (readChunks l).flatten = l := by
  rw [readChunks]
  by_cases h : l = []
  · simp [h]
  · simp only [dif_neg h, List.flatten_cons]
    rw [readChunks_flatten (List.drop BUF_SIZE l), List.take_append_drop]
termination_by l.length
decreasing_by
  have hl : 0 < l.length := List.length_pos.mpr h
  have hb : BUF_SIZE = 1048576 := rfl
  simp only [List.length_drop]
  omega

/-- The streamed CRC of a file equals the one-shot CRC of its bytes. -/
theorem gzipStreamCrc_eq_oneshot (l : List Nat) :
    gzipStreamCrc l = mz_crc32 0 l := by
  unfold gzipStreamCrc
  rw [foldl_mz_crc32_eq_join, readChunks_flatten]
  have hseed : mz_crc32 0 [] = 0 := by simp [mz_crc32]
  rw [hseed]

/-- Masking with 0xFF is reduction modulo 256. -/
theorem and255_eq_mod (x : Nat) : x &&& 255 = x % 256 := by
  have h := Nat.and_pow_two_sub_one_eq_mod x 8
  norm_num at h
  exact h

/-- getByte with index 0 isolates bits 0-7. -/
theorem getByte_zero (m : Nat) : getByte m 0 = m % 256 := by
  simp [getByte, and255_eq_mod]

/-- getByte with index 1 isolates bits 8-15. -/
theorem getByte_one (m : Nat) : getByte m 1 = m / 2 ^ 8 % 256 := by
  simp [getByte, Nat.shiftRight_eq_div_pow, and255_eq_mod]

/-- getByte with index 2 isolates bits 16-23. -/
theorem getByte_two (m : Nat) : getByte m 2 = m / 2 ^ 16 % 256 := by
  simp [getByte, Nat.shiftRight_eq_div_pow, and255_eq_mod]

/-- getByte with index 3 isolates bits 24-31. -/
theorem getByte_three (m : Nat) : getByte m 3 = m / 2 ^ 24 % 256 := by
  simp [getByte, Nat.shiftRight_eq_div_pow, and255_eq_mod]

/-! Claim theorems. -/

/-- C1: the claim fails on the code. compressGzipFile's footer size
argument is finSize & (LONG_MAX - 1) cast to 32 bits (line 475), and
LONG_MAX - 1 is an even mask, so the low bit of the length is cleared
instead of the length being reduced modulo 2^32: for a 1-byte source
file the ISIZE field written by writeGzipFooter encodes 0, while
len(F) mod 2^32 = 1. -/
theorem C1_footer_size_field_clears_low_bit :
    gzipModsize 1 = 0 ∧
    (1 : Nat) % 2 ^ 32 = 1 ∧
    writeGzipFooter 0 (gzipModsize 1) = [0, 0, 0, 0, 0, 0, 0, 0] ∧
    decodeLE32 ((writeGzipFooter 0 (gzipModsize 1)).drop 4) ≠ 1 % 2 ^ 32 := by
  decide

/-- C2: the running CRC32 of compressGzipFile starts from the
CRC32-of-empty-input seed (which is 0) and absorbs exactly the chunks
read by the 1 MiB loop, and the chunked accumulation equals the
one-shot CRC32 of the whole plaintext. -/
theorem C2_chunked_crc_equals_oneshot (l : List Nat) :
    gzipStreamCrc l = mz_crc32 0 l ∧ mz_crc32 0 [] = 0 :=
  ⟨gzipStreamCrc_eq_oneshot l, by decide⟩

/-- C6: for every mtime value, writeGzipHeader writes exactly the
bytes 0x1F, 0x8B, 8, 0, the four mtime bytes in little-endian order,
0, and the platform OS byte; and compressGzipFile passes as mtime the
last-modified time in seconds since the epoch truncated to 32 bits. -/
theorem C6_header_layout_and_mtime (win32 : Bool) (m ms : Nat) :
    writeGzipHeader win32 m =
      [31, 139, 8, 0, m % 256, m / 2 ^ 8 % 256, m / 2 ^ 16 % 256,
       m / 2 ^ 24 % 256, 0, if win32 then 0 else 3] ∧
    gzipMtimeArg ms = ms / 1000 % 2 ^ 32 :=
  ⟨by simp [writeGzipHeader, getByte_zero, getByte_one, getByte_two,
            getByte_three],
   rfl⟩

/-- C10: with algorithm NO_COMPRESSION, fileCompress behaves exactly
as with ZIP_ARCHIVE: the dispatch sends every algorithm other than
GZIP_ARCHIVE to compressZipFile. -/
theorem C10_none_dispatches_to_zip (gz : Int) (srcExists : Bool)
    (w : MzZipWriterOutcome) :
    fileCompress compressedFileFormatEnum.NO_COMPRESSION gz srcExists w =
      fileCompress compressedFileFormatEnum.ZIP_ARCHIVE gz srcExists w ∧
    fileCompress compressedFileFormatEnum.NO_COMPRESSION gz srcExists w =
      (compressZipFileTrace srcExists w).ret :=
  ⟨rfl, rfl⟩

/-- The three sequential single-character replacement passes of
calculateNameCompliantWithZipAlgoMiniZ equal one pass replacing each
of the three separator characters. -/
theorem sanitize_eq_single_map (s : List Char) :
    calculateNameCompliantWithZipAlgoMiniZ s =
      s.map (fun c => if c = '\\' ∨ c = '/' ∨ c = ':' then '_' else c) := by
  simp only [calculateNameCompliantWithZipAlgoMiniZ, replaceAllChar,
    List.map_map]
  apply List.map_congr_left
  intro c _
  by_cases h1 : c = '\\'
  · subst h1; decide
  · by_cases h2 : c = '/'
    · subst h2; decide
    · by_cases h3 : c = ':'
      · subst h3; decide
      · simp [Function.comp, h1, h2, h3]

/-- C8: getCompressedFilename appends ".gz" unchanged for Gzip,
replaces every backslash, slash and colon by an underscore and appends
".zip" for Zip, and returns the name unchanged for the None/unknown
algorithm; in particular it maps "a/b:c" to "a_b_c.zip" under Zip and
"report.txt" to "report.txt.gz" under Gzip. -/
theorem C8_getCompressedFilename_cases (s : List Char) :
    getCompressedFilename s compressedFileFormatEnum.GZIP_ARCHIVE =
      s ++ ".gz".toList ∧
    getCompressedFilename s compressedFileFormatEnum.ZIP_ARCHIVE =
      s.map (fun c => if c = '\\' ∨ c = '/' ∨ c = ':' then '_' else c) ++
        ".zip".toList ∧
    getCompressedFilename s compressedFileFormatEnum.NO_COMPRESSION = s ∧
    getCompressedFilename "a/b:c".toList compressedFileFormatEnum.ZIP_ARCHIVE =
      "a_b_c.zip".toList ∧
    getCompressedFilename "report.txt".toList
      compressedFileFormatEnum.GZIP_ARCHIVE = "report.txt.gz".toList := by
  refine ⟨rfl, ?_, rfl, by decide, by decide⟩
  show calculateNameCompliantWithZipAlgoMiniZ s ++ ZIP_EXT = _
  rw [sanitize_eq_single_map]
  rfl

/-- C9 counterexample: for the destination directory "a//" the code
keeps both pre-existing trailing separators, so the result "a//b" has
a directory part ending in two consecutive separators, while the
claim's join (exactly one trailing separator) gives "a/b". -/
theorem C9_counterexample_double_separator :
    calculateFilenameWithPath false "a//".toList "b".toList = "a//b".toList ∧
    specJoinPath false "a//".toList "b".toList = "a/b".toList ∧
    calculateFilenameWithPath false "a//".toList "b".toList ≠
      specJoinPath false "a//".toList "b".toList := by
  decide

/-- C9 (amended): calculateFilenameWithPath ensures at least one
trailing separator: the result is always the (normalized) directory,
then a single appended '/' exactly when the directory does not already
end with '/', then the name; pre-existing trailing separators are kept
as they are. -/
theorem C9_amended_at_least_one_separator (win32 : Bool)
    (dir name : List Char) :
    (∃ d, calculateFilenameWithPath win32 dir name = d ++ '/' :: name) ∧
    calculateFilenameWithPath win32 dir name =
      fromNativeSeparators win32 dir ++
        ((if (fromNativeSeparators win32 dir).getLast? = some '/' then []
          else ['/']) ++ name) := by
  simp only [calculateFilenameWithPath]
  by_cases h : (fromNativeSeparators win32 dir).getLast? = some '/'
  · refine ⟨⟨(fromNativeSeparators win32 dir).dropLast, ?_⟩, ?_⟩
    · have hd := List.dropLast_append_getLast? (l := fromNativeSeparators win32 dir)
        '/' (Option.mem_def.mpr h)
      simp only [if_pos h]
      conv_lhs => rw [← hd]
      simp
    · simp [h]
  · refine ⟨⟨fromNativeSeparators win32 dir, ?_⟩, ?_⟩
    · simp [h]
    · simp [h]

/-- Any reported failure among the four writer calls makes
compressZipFileTrace return EXIT_FAILURE. -/
theorem compressZipFileTrace_fail (w : MzZipWriterOutcome)
    (hfail : w.initOk = false ∨ w.addOk = false ∨ w.finalizeOk = false ∨
      w.endOk = false) :
    (compressZipFileTrace true w).ret = EXIT_FAILURE := by
  unfold compressZipFileTrace
  rcases w with ⟨i, a, f, e⟩
  cases i <;> cases a <;> cases f <;> cases e <;> simp_all

/-- If some entry has a successful stat, is not a directory and fails
to extract, the extraction loop returns EXIT_FAILURE early. -/
theorem uncompressLoop_fail (entries : List MzZipEntry)
    (h : ∃ e ∈ entries,
      e.statOk = true ∧ e.isDir = false ∧ e.extractOk = false) :
    uncompressLoop entries = some EXIT_FAILURE := by
  induction entries with
  | nil => simp at h
  | cons a t ih =>
      rcases h with ⟨e, he, hs, hd, hx⟩
      rcases List.mem_cons.mp he with heq | hmem
      · subst heq
        simp [uncompressLoop, hs, hd, hx]
      · by_cases h1 : a.statOk = false
        · simp [uncompressLoop, h1, ih ⟨e, hmem, hs, hd, hx⟩]
        · by_cases h2 : a.isDir = true
          · simp [uncompressLoop, h1, h2, ih ⟨e, hmem, hs, hd, hx⟩]
          · by_cases h3 : a.extractOk = false
            · simp [uncompressLoop, h1, h2, h3]
            · simp [uncompressLoop, h1, h2, h3, ih ⟨e, hmem, hs, hd, hx⟩]

/-- C4 counterexample: a library-reported failure (writer init) makes
compressZipFile return EXIT_FAILURE = 1, not the CodecError code
E_MINIZ_ERROR = -3 the claim states. -/
theorem C4_counterexample_exit_failure_not_codec_error :
    (compressZipFileTrace true ⟨false, true, true, true⟩).ret = EXIT_FAILURE ∧
    (compressZipFileTrace true ⟨false, true, true, true⟩).ret ≠
      E_MINIZ_ERROR := by
  decide

/-- C4 (amended): every library-reported failure in the ZIP path —
open, add, finalize or close in compressZipFile, and open or per-entry
extraction in uncompressZipFile — returns the generic non-zero code
EXIT_FAILURE = 1, which is neither 0 nor the CodecError code -3. -/
theorem C4_zip_failures_return_generic_code (w : MzZipWriterOutcome)
    (entries : List MzZipEntry) :
    (w.initOk = false ∨ w.addOk = false ∨ w.finalizeOk = false ∨
        w.endOk = false →
      (compressZipFileTrace true w).ret = EXIT_FAILURE) ∧
    (uncompressZipFileTrace false entries).ret = EXIT_FAILURE ∧
    ((∃ e ∈ entries,
        e.statOk = true ∧ e.isDir = false ∧ e.extractOk = false) →
      (uncompressZipFileTrace true entries).ret = EXIT_FAILURE) ∧
    EXIT_FAILURE ≠ 0 ∧ EXIT_FAILURE ≠ E_MINIZ_ERROR := by
  refine ⟨compressZipFileTrace_fail w, rfl, ?_, by decide, by decide⟩
  intro h
  have hloop := uncompressLoop_fail entries h
  have hne : entries ≠ [] := by
    rcases h with ⟨e, he, _⟩
    exact List.ne_nil_of_mem he
  have h0 : entries.length ≠ 0 := by
    simpa [List.length_eq_zero] using hne
  simp [uncompressZipFileTrace, hloop, h0]

/-- C4 witness: concrete failing calls (add-file failure for the
writer, one failing file entry for the reader) both return
EXIT_FAILURE. -/
theorem C4_zip_failures_return_generic_code_witness :
    (compressZipFileTrace true ⟨true, false, true, true⟩).ret =
      EXIT_FAILURE ∧
    (uncompressZipFileTrace true [⟨true, false, false⟩]).ret =
      EXIT_FAILURE :=
  ⟨(C4_zip_failures_return_generic_code ⟨true, false, true, true⟩ []).1
      (Or.inr (Or.inl rfl)),
   (C4_zip_failures_return_generic_code ⟨true, false, true, true⟩
      [⟨true, false, false⟩]).2.2.1
      ⟨⟨true, false, false⟩, List.mem_singleton.mpr rfl, rfl, rfl, rfl⟩⟩

/-- C7: the claim fails on the code. When the archive was successfully
opened but add-file fails in compressZipFile, or per-entry extraction
fails in uncompressZipFile, the function returns without calling
writer_end / reader_end at all (0 end calls, not exactly 1); the
all-success runs do close the handle exactly once. -/
theorem C7_opened_handle_not_closed_on_failure :
    (compressZipFileTrace true ⟨true, false, true, true⟩).endCalls = 0 ∧
    (uncompressZipFileTrace true [⟨true, false, false⟩]).endCalls = 0 ∧
    (compressZipFileTrace true ⟨true, true, true, true⟩).endCalls = 1 ∧
    (uncompressZipFileTrace true [⟨true, false, true⟩]).endCalls = 1 := by
  decide

/-- The streamed CRC of the empty file is the seed value 0. -/
theorem gzipStreamCrc_nil : gzipStreamCrc [] = 0 := by
  rw [gzipStreamCrc_eq_oneshot]
  decide

/-- C5 counterexample: with the minimal nonempty stream the external
compressor emits for empty input, the destination file for an empty
source is 20 bytes, not 18. -/
theorem C5_counterexample_twenty_bytes :
    (compressGzipFileBytes false 0 [] deflateFinishEmpty).length = 20 ∧
    (20 : Nat) ≠ 18 := by
  refine ⟨?_, by decide⟩
  simp [compressGzipFileBytes, writeGzipHeader, writeGzipFooter,
    deflateFinishEmpty]

/-- C5 (amended): compressing an empty source file produces the
10-byte header, the compressor's minimal nonempty payload, and the
8-byte footer whose CRC32 field is the seed value 0 and whose size
field is 0 — a total of 18 plus the payload length, which is never
exactly 18. -/
theorem C5_empty_input_framing (win32 : Bool) (mtimeMsecs : Nat)
    (d : List Nat) (hd : d ≠ []) :
    (compressGzipFileBytes win32 mtimeMsecs [] d).length = 18 + d.length ∧
    (compressGzipFileBytes win32 mtimeMsecs [] d).length ≠ 18 ∧
    gzipStreamCrc [] = 0 ∧
    gzipModsize 0 = 0 ∧
    writeGzipFooter (gzipStreamCrc []) (gzipModsize 0) =
      [0, 0, 0, 0, 0, 0, 0, 0] := by
  have hlen : (compressGzipFileBytes win32 mtimeMsecs [] d).length =
      18 + d.length := by
    simp [compressGzipFileBytes, writeGzipHeader, writeGzipFooter]
    omega
  have hpos : 0 < d.length := List.length_pos.mpr hd
  refine ⟨hlen, ?_, gzipStreamCrc_nil, by decide, ?_⟩
  · rw [hlen]; omega
  · rw [gzipStreamCrc_nil]; decide

/-- C5 witness: the amended statement at the concrete minimal payload
for empty input. -/
theorem C5_empty_input_framing_witness :
    (compressGzipFileBytes false 0 [] deflateFinishEmpty).length =
      18 + deflateFinishEmpty.length ∧
    (compressGzipFileBytes false 0 [] deflateFinishEmpty).length ≠ 18 ∧
    gzipStreamCrc [] = 0 ∧
    gzipModsize 0 = 0 ∧
    writeGzipFooter (gzipStreamCrc []) (gzipModsize 0) =
      [0, 0, 0, 0, 0, 0, 0, 0] :=
  C5_empty_input_framing false 0 deflateFinishEmpty (by decide)

/-- C3: the claim fails on the code for Gzip. For the 1-byte file
[65], the ISIZE field of the produced container (its last 4 bytes)
decodes to 0 while the uncompressed length modulo 2^32 is 1, so an
RFC 1952-conformant decoder's ISIZE consistency check rejects the
container instead of yielding the original bytes. -/
theorem C3_isize_mismatch_breaks_gzip_roundtrip :
    decodeLE32
        ((compressGzipFileBytes false 0 [65] deflateStoredSingleA).drop 20) =
      0 ∧
    ([65] : List Nat).length % 2 ^ 32 = 1 ∧
    decodeLE32
        ((compressGzipFileBytes false 0 [65] deflateStoredSingleA).drop 20) ≠
      ([65] : List Nat).length % 2 ^ 32 := by
  have hc := gzipStreamCrc_eq_oneshot [65]
  simp only [compressGzipFileBytes, hc]
  decide

end NrFileCompressor
